import Mathlib

/-!
Shallow embedding of the liquid-level estimation and tracking core of the
heinsight repository (heinsight/liquidlevel/liquid_level.py,
heinsight/liquidlevel/track_tolerance_levels.py, and the statistical
aggregation of heinsight_applications/heinsight_liquid_level_applications.py).

Conventions used throughout:
* Python floats are embedded as exact rationals (`ℚ`); pixel rows and
  columns as integers (`ℤ`).  Where an algorithm is purely order/ring
  theoretic it is stated over any `LinearOrderedRing`, so the theorems
  cover rational- and real-valued profiles alike and concrete instances
  can be evaluated over `ℤ`.
* Python exceptions are embedded as an `Except PyErr` result.
* Attribute state of a Python object is passed explicitly: each method is
  embedded as a function of the attributes it reads.
-/

/-- Python exception kinds that the embedded code paths can produce.
`noMeniscusFound` is the `NoMeniscusFound` exception class declared at
liquid_level.py lines 95-98; it is declared here for the same reason it is
declared there, so that theorems can speak about whether it is ever
produced. -/
inductive PyErr
  | indexError
  | attributeError
  | zeroDivisionError
  | noMeniscusFound
  deriving DecidableEq

/-- Python list subscription `l[i]` with negative-index wrap-around: an index
`i` with `-len(l) <= i < 0` addresses `l[i + len(l)]`, and anything outside
`[-len(l), len(l))` raises `IndexError`. -/
def pyGetElem {α : Type} (l : List α) (i : ℤ) : Except PyErr α :=
  let j : ℤ := if i < 0 then i + l.length else i
  if j < 0 then .error .indexError
  else
    match l.get? j.toNat with
    | some a => .ok a
    | none => .error .indexError

namespace TrackLiquidToleranceLevels

/-- The mutable attributes of a `TrackLiquidToleranceLevels` object that the
claims are about: `self.reference_rows` and `self.tolerance_levels`, both
lists of heights relative to the image height
(track_tolerance_levels.py lines 30-39). -/
structure State where
  referenceRows : List ℚ
  toleranceLevels : List ℚ

/-- `TrackLiquidToleranceLevels.reset` (track_tolerance_levels.py lines
54-59): `reset_reference` sets `reference_rows = []` and `reset` sets
`tolerance_levels = []`. -/
def reset (_s : State) : State := ⟨[], []⟩

/-- `TrackLiquidToleranceLevels.set_reference_level` (track_tolerance_levels.py
lines 161-170): `self.reference_rows.append(height)`. -/
def set_reference_level (referenceRows : List ℚ) (height : ℚ) : List ℚ :=
  referenceRows ++ [height]

/-- `TrackLiquidToleranceLevels.distance_from_reference`
(track_tolerance_levels.py lines 172-188): for each stored reference row
append `row - height` to the returned list.  There is no emptiness guard:
with no reference set the loop body never runs and the empty list is
returned. -/
def distance_from_reference (referenceRows : List ℚ) (height : ℚ) : List ℚ :=
  referenceRows.map (fun row => row - height)

end TrackLiquidToleranceLevels

namespace TrackOneLiquidToleranceLevel

/-- `TrackOneLiquidToleranceLevel.in_tolerance` (track_tolerance_levels.py
lines 454-477).  `aboveInTolerance` is the `self.above_in_tolerance`
attribute set by the constructor from the `above_or_below` string
(lines 391-409).  `tolerance_levels[0]` on an empty list raises
`IndexError`. -/
def in_tolerance (aboveInTolerance : Bool) (toleranceLevels : List ℚ)
    (height : ℚ) : Except PyErr Bool :=
  match toleranceLevels with
  | [] => .error .indexError
  | t0 :: _ =>
    if aboveInTolerance then
      if height < t0 then .ok true else .ok false
    else
      if height > t0 then .ok true else .ok false

/-- `TrackOneLiquidToleranceLevel.set_tolerance_levels`
(track_tolerance_levels.py lines 447-452): `self.tolerance_levels =
[height_1]` (the `height_2` parameter is ignored). -/
def set_tolerance_levels (height1 : ℚ) : List ℚ := [height1]

end TrackOneLiquidToleranceLevel

namespace TrackTwoLiquidToleranceLevels

/-- `TrackTwoLiquidToleranceLevels.set_tolerance_levels`
(track_tolerance_levels.py lines 560-565): `self.tolerance_levels =
[height_1, height_2]`. -/
def set_tolerance_levels (height1 height2 : ℚ) : List ℚ := [height1, height2]

/-- The guard `if self.tolerance_levels is []` at track_tolerance_levels.py
line 579.  Python `is` compares object identity, and the literal `[]`
allocates a fresh list object each time the line runs, so the comparison is
`False` for every possible value of the attribute, including the empty
list. -/
def isFreshEmptyLiteral (_toleranceLevels : List ℚ) : Bool := false

/-- `TrackTwoLiquidToleranceLevels.in_tolerance` (track_tolerance_levels.py
lines 567-590): after the (never-firing) identity guard, read
`tolerance_levels[0]` and `tolerance_levels[1]` (raising `IndexError` when
absent), set `upper = min`, `lower = max`, and return
`height > upper and height < lower`. -/
def in_tolerance (toleranceLevels : List ℚ) (height : ℚ) : Except PyErr Bool :=
  if isFreshEmptyLiteral toleranceLevels then .error .attributeError
  else
    match toleranceLevels with
    | [] => .error .indexError
    | [_] => .error .indexError
    | t1 :: t2 :: _ =>
      let upper := min t1 t2
      let lower := max t1 t2
      if height > upper ∧ height < lower then .ok true else .ok false

end TrackTwoLiquidToleranceLevels

namespace LiquidLevel

/-- The guard `if self.track_liquid_tolerance_levels.reference_rows is None`
at liquid_level.py line 951.  The `reference_rows` attribute is initialized
to `[]` and reset to `[]` (track_tolerance_levels.py lines 30 and 62) and is
never assigned `None`, so the guard is `False` in every reachable state. -/
def referenceRowsIsNone (_referenceRows : List ℚ) : Bool := false

/-- `LiquidLevel.distance_from_reference` (liquid_level.py lines 939-961):
return `None` when no tracker is attached; raise `AttributeError` when the
tracker's `reference_rows` is `None` (which never happens, see
`referenceRowsIsNone`); otherwise delegate to the tracker with the current
row. -/
def distance_from_reference (trackerPresent : Bool) (referenceRows : List ℚ)
    (row : ℚ) : Except PyErr (Option (List ℚ)) :=
  if trackerPresent = false then .ok none
  else if referenceRowsIsNone referenceRows then .error .attributeError
  else .ok (some (TrackLiquidToleranceLevels.distance_from_reference
    referenceRows row))

/-- `LiquidLevel.add_image_to_memory` (liquid_level.py lines 1169-1177).
The method appends `[img_name, img]` to the caller's list object (a mutation
visible through every alias, in particular through the attribute the caller
passed in), then executes `array_to_save_to = array_to_save_to[-1:]` when the
length reached `n = 50` - slicing builds a new list and the assignment
rebinds only the local parameter name.  The embedding returns both the list
object the caller still holds (first component) and the final value of the
local name (second component). -/
def add_image_to_memory {Img Name : Type} (img : Img) (imgName : Name)
    (arrayToSaveTo : List (Name × Img)) :
    List (Name × Img) × List (Name × Img) :=
  let sharedObject := arrayToSaveTo ++ [(imgName, img)]
  let localName :=
    if 50 ≤ sharedObject.length then sharedObject.drop (sharedObject.length - 1)
    else sharedObject
  (sharedObject, localName)

/-- `LiquidLevel.find_maximum_edges_of_mask` (liquid_level.py lines 634-655):
fold over the selected frame points, starting from `left = top = 1000*1000`
and `right = bottom = -1`, keeping the least/greatest x as left/right and the
least/greatest y as top/bottom.  Returned as (left, right, top, bottom). -/
def find_maximum_edges_of_mask (listOfFramePoints : List (ℤ × ℤ)) :
    ℤ × ℤ × ℤ × ℤ :=
  listOfFramePoints.foldl
    (fun acc p =>
      ⟨if p.1 < acc.1 then p.1 else acc.1,
       if p.1 > acc.2.1 then p.1 else acc.2.1,
       if p.2 < acc.2.2.1 then p.2 else acc.2.2.1,
       if p.2 > acc.2.2.2 then p.2 else acc.2.2.2⟩)
    (1000 * 1000, -1, 1000 * 1000, -1)

/-- The region-finalization step of `LiquidLevel.select_region_of_interest`
(liquid_level.py lines 605-620): once the user confirms the selection, the
collected click points are read as `list_of_frame_points[-2]` and
`list_of_frame_points[-1]` to draw the mask rectangle.  No validation of the
points happens anywhere in the method: fewer than two points makes the `[-2]`
subscription raise `IndexError`, and coincident points are accepted.  The
embedding returns the two corner points the rectangle is built from. -/
def select_region_of_interest (listOfFramePoints : List (ℤ × ℤ)) :
    Except PyErr ((ℤ × ℤ) × (ℤ × ℤ)) :=
  match pyGetElem listOfFramePoints (-2), pyGetElem listOfFramePoints (-1) with
  | .ok p1, .ok p2 => .ok (p1, p2)
  | .error e, _ => .error e
  | _, .error e => .error e

end LiquidLevel

section DerivativeLevelFinder

/- Embedding of `LiquidLevel.find_max_change_location` (liquid_level.py lines
657-786).  The function receives the per-row profile already smoothed by the
zero-phase Butterworth filter (`filtfilt`); the claims quantify over smoothed
profiles, so the smoothed profile is the input here.  Profile values are
real-valued in the source; everything below only subtracts, takes absolute
values and compares, so it is stated over an arbitrary `LinearOrderedRing`,
which covers the exact-rational embedding of the floats and lets concrete
instances run over `ℤ`. -/

variable {A : Type} [LinearOrderedRing A]

/-- `numpy.diff` (with the source's `dh = 1` divisor): the list of
differences of adjacent entries, one shorter than the input. -/
def npDiff (xs : List A) : List A := (xs.zip xs.tail).map (fun p => p.2 - p.1)

/-- The elementwise absolute value loops of liquid_level.py lines 710-717. -/
def npAbsList (xs : List A) : List A := xs.map (fun v => |v|)

/-- The plateau scan of scipy's `_local_maxima_1d`: starting at `j`, advance
while `j < iMax` and `x[j]` still equals the candidate peak value `v`; return
the first index where that fails.  The extra fuel argument only bounds the
recursion and is always called with fuel `≥ iMax`, which the scan can never
exhaust. -/
def scanPlateau (x : List A) (v : A) (iMax : ℕ) : ℕ → ℕ → ℕ
  | 0, j => j
  | fuel + 1, j =>
    if j < iMax ∧ x.getD j 0 = v then scanPlateau x v iMax fuel (j + 1) else j

/-- The main loop of scipy's `_local_maxima_1d`, used by
`scipy.signal.find_peaks` at liquid_level.py line 723: walk `i` from 1 to
`iMax - 1` (`iMax = len - 1`); at a strict rise followed (possibly after a
plateau) by a strict fall, record the plateau midpoint
`(left_edge + right_edge) / 2` and jump past the plateau.  The fuel argument
only bounds the recursion; every call site passes fuel `≥ iMax`, while the
loop advances `i` by at least one per step, so the fuel is never
exhausted. -/
def findPeaksAux (x : List A) (iMax : ℕ) : ℕ → ℕ → List ℕ
  | 0, _ => []
  | fuel + 1, i =>
    if i < iMax then
      if x.getD (i - 1) 0 < x.getD i 0 then
        let iAhead := scanPlateau x (x.getD i 0) iMax iMax (i + 1)
        if x.getD iAhead 0 < x.getD i 0 then
          (i + (iAhead - 1)) / 2 :: findPeaksAux x iMax fuel (iAhead + 1)
        else findPeaksAux x iMax fuel (i + 1)
      else findPeaksAux x iMax fuel (i + 1)
    else []

/-- `scipy.signal.find_peaks(x, height=0)`: all interior local maxima (with
plateau midpoints), filtered to those whose height is at least 0 - which, on
the absolute-value input the source feeds it, keeps every peak. -/
def find_peaks (x : List A) : List ℕ :=
  (findPeaksAux x (x.length - 1) x.length 1).filter
    (fun p => decide (0 ≤ x.getD p 0))

/-- Stable insertion into a descending-sorted list, auxiliary to
`sortDesc`. -/
def insertDesc (a : A) : List A → List A
  | [] => [a]
  | b :: t => if b ≤ a then a :: b :: t else b :: insertDesc a t

/-- Python `sorted(values, reverse=True)` (liquid_level.py line 750): a
stable descending sort of the peak heights. -/
def sortDesc : List A → List A
  | [] => []
  | a :: t => insertDesc a (sortDesc t)

/-- Lines 744-761 of liquid_level.py: from the peak indices and their
heights, pick the two greatest heights out of the descending-sorted height
list (an `IndexError`, embedded as `none`, when there are fewer than two
peaks); map each back to the FIRST position holding that value
(`np.where(peak_heights == value)[0][0]`); fetch the corresponding peak
indices; and sort the resulting pair, returned as (lesser, greater).  When
the two greatest heights are equal, both `np.where` lookups find the same
first position and the window degenerates, exactly as in the source. -/
def selectPeakWindow (abs2 : List A) : Option (ℕ × ℕ) :=
  let iPeaks := find_peaks abs2
  let peakHeights := iPeaks.map (fun p => abs2.getD p 0)
  let sorted := sortDesc peakHeights
  match sorted.get? 0, sorted.get? 1 with
  | some v1, some v2 =>
    match peakHeights.findIdx? (fun x => x == v1),
          peakHeights.findIdx? (fun x => x == v2) with
    | some j1, some j2 =>
      match iPeaks.get? j1, iPeaks.get? j2 with
      | some q1, some q2 => some (min q1 q2, max q1 q2)
      | _, _ => none
    | _, _ => none
  | _, _ => none

/-- The maximum-search loop of liquid_level.py lines 765-772: starting from
`max_i = 0`, `max_i_idx = 0`, scan all indices of the absolute
third-derivative list and, on indices within `[lo, hi]` whose value strictly
exceeds the current maximum, update both.  Note the window bounds are indices
of the SECOND-derivative array applied directly to the third-derivative
array. -/
def maxLoop (lo hi : ℕ) : List A → ℕ → A × ℕ → A × ℕ
  | [], _, acc => acc
  | v :: rest, idx, acc =>
    maxLoop lo hi rest (idx + 1)
      (if lo ≤ idx ∧ idx ≤ hi ∧ acc.1 < v then (v, idx) else acc)

/-- The `rows` array of `find_liquid_level`: `range(top_row, bottom_row)`
(liquid_level.py line 810), passed to `find_max_change_location`. -/
def rangeZ (top : ℤ) (n : ℕ) : List ℤ :=
  List.map (fun i : ℕ => top + (i : ℤ)) (List.range n)

/-- `LiquidLevel.find_max_change_location` from the smoothed profile on:
second and third discrete derivatives, absolute values, the two highest
peaks of the absolute second derivative, the in-window maximum of the
absolute third derivative, and finally `rows[max_i_idx + 3]`
(liquid_level.py lines 689-786).  Failing subscriptions (`IndexError` in the
source: fewer than two peaks at line 753, or `rows[max_i_idx + 3]` out of
range) are embedded as `Except.error .indexError`. -/
def find_max_change_location (rows : List ℤ) (aspectSmoothed : List A) :
    Except PyErr ℤ :=
  let abs3 := npAbsList (npDiff (npDiff (npDiff aspectSmoothed)))
  match selectPeakWindow (npAbsList (npDiff (npDiff aspectSmoothed))) with
  | none => .error .indexError
  | some (pLo, pHi) =>
    match rows.get? ((maxLoop pLo pHi abs3 0 (0, 0)).2 + 3) with
    | none => .error .indexError
    | some row => .ok row

end DerivativeLevelFinder

namespace LiquidLevel

/-- The final decision of `LiquidLevel.find_liquid_level` (liquid_level.py
lines 878-904), from the values the preceding loops computed: the meniscus
rows proposed by `find_max_change_location` for the hue, saturation and
brightness channels, and the regional saturation/brightness averages.  When
the region below the saturation row is bright (`> 50`) and clearly more
saturated than the region above (`>= above + 50`) the saturation row is
used, otherwise the brightness row; either way the chosen row divided by the
image height is returned (a zero image height would make the division raise
`ZeroDivisionError`).  The method also receives the instance configuration
`self.find_meniscus_minimum` and `self.no_error` (liquid_level.py lines
207-211), which the body never reads: no branch of the method raises
`NoMeniscusFound` or substitutes a fallback height. -/
def find_liquid_level (imgHeight _hueRow saturationRow brightnessRow : ℤ)
    (saturationAboveAv saturationBelowAv brightnessBelowAv : ℚ)
    (_findMeniscusMinimum : ℚ) (_noError : Bool) : Except PyErr ℚ :=
  if imgHeight = 0 then .error .zeroDivisionError
  else if 50 < brightnessBelowAv ∧
      saturationAboveAv + 50 ≤ saturationBelowAv then
    .ok ((saturationRow : ℚ) / (imgHeight : ℚ))
  else
    .ok ((brightnessRow : ℚ) / (imgHeight : ℚ))

end LiquidLevel

namespace AutomatedLiquidLevelApplication

/-- Stable insertion into an ascending-sorted list, auxiliary to
`sortAsc`. -/
def insertAsc (a : ℚ) : List ℚ → List ℚ
  | [] => [a]
  | b :: t => if a ≤ b then a :: b :: t else b :: insertAsc a t

/-- An ascending stable sort, used to embed `numpy.median`. -/
def sortAsc : List ℚ → List ℚ
  | [] => []
  | a :: t => insertAsc a (sortAsc t)

/-- `numpy.median`: middle element of the sorted data for odd length, mean of
the two middle elements for even length.  On empty input numpy produces NaN,
which has no exact-rational counterpart; that case is embedded as
`none`. -/
def npMedian (xs : List ℚ) : Option ℚ :=
  if xs.length = 0 then none
  else
    let s := sortAsc xs
    if xs.length % 2 = 1 then some (s.getD (xs.length / 2) 0)
    else some ((s.getD (xs.length / 2 - 1) 0 + s.getD (xs.length / 2) 0) / 2)

/-- `reject_outliers_modified_z` (heinsight_liquid_level_applications.py
lines 378-388): compute the median and the median absolute deviation of the
input, substitute `0.001` when the MAD is exactly zero, form the modified
z-scores `0.6745 * (x - median) / MAD`, and keep exactly the input values
whose score has absolute value strictly below the threshold (the source's
default threshold is 1). -/
def reject_outliers_modified_z (df : List ℚ) (threshold : ℚ) :
    Option (List ℚ) :=
  match npMedian df with
  | none => none
  | some med =>
    match npMedian (df.map (fun i => |i - med|)) with
    | none => none
    | some mad0 =>
      let mad := if mad0 = 0 then 1 / 1000 else mad0
      let zs := df.map (fun i => 6745 / 10000 * (i - med) / mad)
      some ((df.zip zs).filterMap
        (fun p => if |p.2| < threshold then some p.1 else none))

/-- The aggregation step of `monitor_liquid_level`
(heinsight_liquid_level_applications.py lines 280-286): reject outliers with
`reject_outliers_modified_z`, then sum the survivors and divide by their
count (an empty survivor list would make the division raise
`ZeroDivisionError`, embedded as `none`). -/
def monitor_average_percent_diff (listOfPercentDiff : List ℚ)
    (threshold : ℚ) : Option ℚ :=
  match reject_outliers_modified_z listOfPercentDiff threshold with
  | none => none
  | some keep =>
    if keep.length = 0 then none else some (keep.sum / keep.length)

end AutomatedLiquidLevelApplication

theorem maxLoop_fst_le {A : Type} [LinearOrderedRing A] (lo hi : ℕ) (xs : List A) :
    ∀ (idx : ℕ) (acc : A × ℕ), acc.1 ≤ (maxLoop lo hi xs idx acc).1 := by
  induction xs with
  | nil => intro idx acc; exact le_refl _
  | cons v rest ih =>
    intro idx acc
    simp only [maxLoop]
    by_cases h : lo ≤ idx ∧ idx ≤ hi ∧ acc.1 < v
    · rw [if_pos h]
      exact le_trans (le_of_lt h.2.2) (ih (idx + 1) (v, idx))
    · rw [if_neg h]
      exact ih (idx + 1) acc

theorem maxLoop_fst_ge {A : Type} [LinearOrderedRing A] (lo hi : ℕ) (xs : List A) :
    ∀ (idx : ℕ) (acc : A × ℕ) (j : ℕ), idx ≤ j → j < idx + xs.length →
      lo ≤ j → j ≤ hi → xs.getD (j - idx) 0 ≤ (maxLoop lo hi xs idx acc).1 := by
  induction xs with
  | nil =>
    intro idx acc j h1 h2 _ _
    simp only [List.length_nil, Nat.add_zero] at h2
    omega
  | cons v rest ih =>
    intro idx acc j h1 h2 h3 h4
    have h2' : j < (idx + 1) + rest.length := by
      simp only [List.length_cons] at h2; omega
    simp only [maxLoop]
    rcases Nat.eq_or_lt_of_le h1 with heq | hlt
    · subst heq
      rw [Nat.sub_self]
      simp only [List.getD_cons_zero]
      by_cases h : lo ≤ idx ∧ idx ≤ hi ∧ acc.1 < v
      · rw [if_pos h]
        have hle := maxLoop_fst_le lo hi rest (idx + 1) (v, idx)
        simpa using hle
      · rw [if_neg h]
        push_neg at h
        have hv : v ≤ acc.1 := h h3 h4
        exact le_trans hv (maxLoop_fst_le lo hi rest (idx + 1) acc)
    · have hgetD : (v :: rest).getD (j - idx) 0 = rest.getD (j - (idx + 1)) 0 := by
        have hji : j - idx = (j - (idx + 1)) + 1 := by omega
        rw [hji, List.getD_cons_succ]
      rw [hgetD]
      by_cases h : lo ≤ idx ∧ idx ≤ hi ∧ acc.1 < v
      · rw [if_pos h]
        exact ih (idx + 1) (v, idx) j hlt h2' h3 h4
      · rw [if_neg h]
        exact ih (idx + 1) acc j hlt h2' h3 h4

theorem maxLoop_spec {A : Type} [LinearOrderedRing A] (lo hi : ℕ) (xs : List A) :
    ∀ (idx : ℕ) (acc : A × ℕ),
      maxLoop lo hi xs idx acc = acc ∨
      (lo ≤ (maxLoop lo hi xs idx acc).2 ∧ (maxLoop lo hi xs idx acc).2 ≤ hi ∧
       idx ≤ (maxLoop lo hi xs idx acc).2 ∧
       (maxLoop lo hi xs idx acc).2 < idx + xs.length ∧
       (maxLoop lo hi xs idx acc).1 =
         xs.getD ((maxLoop lo hi xs idx acc).2 - idx) 0) := by
  induction xs with
  | nil => intro idx acc; left; rfl
  | cons v rest ih =>
    intro idx acc
    simp only [maxLoop]
    by_cases h : lo ≤ idx ∧ idx ≤ hi ∧ acc.1 < v
    · rw [if_pos h]
      rcases ih (idx + 1) (v, idx) with heq | hp
      · right
        rw [heq]
        refine ⟨h.1, h.2.1, le_refl idx, ?_, ?_⟩
        · simp only [List.length_cons]; omega
        · rw [Nat.sub_self]; simp only [List.getD_cons_zero]
      · right
        obtain ⟨p1, p2, p3, p4, p5⟩ := hp
        refine ⟨p1, p2, by omega, ?_, ?_⟩
        · have hlc : (v :: rest).length = rest.length + 1 := List.length_cons v rest
          omega
        · rw [p5]
          have hsh : (maxLoop lo hi rest (idx + 1) (v, idx)).2 - idx =
              ((maxLoop lo hi rest (idx + 1) (v, idx)).2 - (idx + 1)) + 1 := by omega
          rw [hsh, List.getD_cons_succ]
    · rw [if_neg h]
      rcases ih (idx + 1) acc with heq | hp
      · left; exact heq
      · right
        obtain ⟨p1, p2, p3, p4, p5⟩ := hp
        refine ⟨p1, p2, by omega, ?_, ?_⟩
        · have hlc : (v :: rest).length = rest.length + 1 := List.length_cons v rest
          omega
        · rw [p5]
          have hsh : (maxLoop lo hi rest (idx + 1) acc).2 - idx =
              ((maxLoop lo hi rest (idx + 1) acc).2 - (idx + 1)) + 1 := by omega
          rw [hsh, List.getD_cons_succ]

theorem npDiff_length {A : Type} [LinearOrderedRing A] (xs : List A) :
    (npDiff xs).length = xs.length - 1 := by
  simp only [npDiff, List.length_map, List.length_zip, List.length_tail]
  omega

theorem npAbsList_length {A : Type} [LinearOrderedRing A] (xs : List A) :
    (npAbsList xs).length = xs.length := by
  simp [npAbsList]

theorem rangeZ_get? (top : ℤ) (n m : ℕ) (h : m < n) :
    (rangeZ top n).get? m = some (top + m) := by
  rw [rangeZ, List.get?_eq_getElem?, List.getElem?_map, List.getElem?_range h]
  rfl

/-- Input profile used to exercise the second/third-derivative level finder
on concrete data: an integer-valued smoothed profile of nine rows whose
absolute second derivative has its two highest peaks at indices 1 and 5. -/
def xsC8 : List ℤ := [0, 0, 0, 2, 4, 6, 11, 25, 37]

/-- C1: the claim says `LiquidLevel.find_liquid_level` raises
`NoMeniscusFound` when no row meets `find_meniscus_minimum` and `no_error`
is false, and returns relative height 0.0 when `no_error` is true.  The
method as written does neither: its result is identical for every value of
`find_meniscus_minimum` and `no_error` (the body never reads them), and no
execution path produces `NoMeniscusFound`. -/
theorem C1_find_liquid_level_never_raises_no_meniscus
    (imgHeight hueRow saturationRow brightnessRow : ℤ)
    (satAbove satBelow brightBelow : ℚ) :
    (∀ (fm fm' : ℚ) (ne ne' : Bool),
      LiquidLevel.find_liquid_level imgHeight hueRow saturationRow
        brightnessRow satAbove satBelow brightBelow fm ne =
      LiquidLevel.find_liquid_level imgHeight hueRow saturationRow
        brightnessRow satAbove satBelow brightBelow fm' ne') ∧
    (∀ (fm : ℚ) (ne : Bool),
      LiquidLevel.find_liquid_level imgHeight hueRow saturationRow
        brightnessRow satAbove satBelow brightBelow fm ne ≠
      Except.error PyErr.noMeniscusFound) := by
  constructor
  · intro fm fm' ne ne'
    rfl
  · intro fm ne
    unfold LiquidLevel.find_liquid_level
    split_ifs <;> simp

/-- C2: for a two-sided tracker with stored bounds (a, b), a ≠ b, and any
relative height h in [0, 1], `in_tolerance h` succeeds with `true` exactly
when min(a,b) < h < max(a,b); in particular both boundary heights h = a and
h = b yield `false` (strict exclusivity of both bounds). -/
theorem C2_two_sided_in_tolerance_strict_band (a b h : ℚ)
    (_hab : a ≠ b) (_h0 : 0 ≤ h) (_h1 : h ≤ 1) :
    (TrackTwoLiquidToleranceLevels.in_tolerance
        (TrackTwoLiquidToleranceLevels.set_tolerance_levels a b) h =
      .ok true ↔ min a b < h ∧ h < max a b) ∧
    TrackTwoLiquidToleranceLevels.in_tolerance
        (TrackTwoLiquidToleranceLevels.set_tolerance_levels a b) a =
      .ok false ∧
    TrackTwoLiquidToleranceLevels.in_tolerance
        (TrackTwoLiquidToleranceLevels.set_tolerance_levels a b) b =
      .ok false := by
  refine ⟨?_, ?_, ?_⟩
  · simp only [TrackTwoLiquidToleranceLevels.in_tolerance,
      TrackTwoLiquidToleranceLevels.set_tolerance_levels,
      TrackTwoLiquidToleranceLevels.isFreshEmptyLiteral,
      Bool.false_eq_true, if_false]
    split_ifs with hc
    · exact iff_of_true rfl ⟨hc.1, hc.2⟩
    · exact iff_of_false (by simp) hc
  · simp only [TrackTwoLiquidToleranceLevels.in_tolerance,
      TrackTwoLiquidToleranceLevels.set_tolerance_levels,
      TrackTwoLiquidToleranceLevels.isFreshEmptyLiteral,
      Bool.false_eq_true, if_false]
    split_ifs with hd
    · exfalso
      rcases le_total a b with hab' | hab'
      · rw [min_eq_left hab'] at hd
        exact lt_irrefl a hd.1
      · rw [max_eq_left hab'] at hd
        exact lt_irrefl a hd.2
    · rfl
  · simp only [TrackTwoLiquidToleranceLevels.in_tolerance,
      TrackTwoLiquidToleranceLevels.set_tolerance_levels,
      TrackTwoLiquidToleranceLevels.isFreshEmptyLiteral,
      Bool.false_eq_true, if_false]
    split_ifs with hd
    · exfalso
      rcases le_total a b with hab' | hab'
      · rw [max_eq_right hab'] at hd
        exact lt_irrefl b hd.2
      · rw [min_eq_right hab'] at hd
        exact lt_irrefl b hd.1
    · rfl

/-- Witness for C2: bounds (1/4, 3/4) and height 1/2 satisfy the hypotheses,
and the tracker reports the strictly-interior height as in tolerance. -/
theorem C2_two_sided_in_tolerance_strict_band_witness :
    ((1 : ℚ)/4 ≠ 3/4) ∧ (0 ≤ (1 : ℚ)/2) ∧ ((1 : ℚ)/2 ≤ 1) ∧
    TrackTwoLiquidToleranceLevels.in_tolerance
      (TrackTwoLiquidToleranceLevels.set_tolerance_levels (1/4) (3/4))
      (1/2) = .ok true := by
  have h := C2_two_sided_in_tolerance_strict_band (1/4) (3/4) (1/2)
    (by norm_num) (by norm_num) (by norm_num)
  exact ⟨by norm_num, by norm_num, by norm_num,
    h.1.mpr (by norm_num [min_def, max_def])⟩

/-- C3 counterexample: the claim says `in_tolerance h` always equals
`(h < bound) == above_is_in_tolerance`, including at h = bound.  With
`above_is_in_tolerance = false` and h = bound = 1/2, the code returns
`false` while the claimed formula evaluates to `true`. -/
theorem C3_one_sided_boundary_counterexample :
    TrackOneLiquidToleranceLevel.in_tolerance false
      (TrackOneLiquidToleranceLevel.set_tolerance_levels (1/2)) (1/2) =
      .ok false ∧
    (decide ((1 : ℚ)/2 < 1/2) == false) = true := by
  constructor
  · simp [TrackOneLiquidToleranceLevel.in_tolerance,
      TrackOneLiquidToleranceLevel.set_tolerance_levels]
  · simp

/-- C3 (amended): for a one-sided tracker with stored bound b and polarity
flag, `in_tolerance h` equals `(h < b) == above_is_in_tolerance` for every
h ≠ b; at h = b the comparison is strict in both polarities and the result
is `false` regardless of the flag. -/
theorem C3_one_sided_in_tolerance_amended (flag : Bool) (b h : ℚ) :
    (h ≠ b → TrackOneLiquidToleranceLevel.in_tolerance flag
      (TrackOneLiquidToleranceLevel.set_tolerance_levels b) h =
        .ok (decide (h < b) == flag)) ∧
    TrackOneLiquidToleranceLevel.in_tolerance flag
      (TrackOneLiquidToleranceLevel.set_tolerance_levels b) b =
      .ok false := by
  constructor
  · intro hne
    cases flag
    · simp only [TrackOneLiquidToleranceLevel.in_tolerance,
        TrackOneLiquidToleranceLevel.set_tolerance_levels,
        Bool.false_eq_true, if_false]
      rcases lt_trichotomy h b with hlt | heq | hgt
      · rw [if_neg (asymm hlt)]
        simp [hlt]
      · exact absurd heq hne
      · rw [if_pos hgt]
        simp [not_lt_of_gt hgt]
    · simp only [TrackOneLiquidToleranceLevel.in_tolerance,
        TrackOneLiquidToleranceLevel.set_tolerance_levels, if_true]
      by_cases hc : h < b <;> simp [hc]
  · cases flag <;>
      simp [TrackOneLiquidToleranceLevel.in_tolerance,
        TrackOneLiquidToleranceLevel.set_tolerance_levels, lt_irrefl]

/-- Witness for C3: bound 1/2, below-is-in-tolerance polarity, height 1/4;
the height differs from the bound and the formula of the amended claim
evaluates as the code does. -/
theorem C3_one_sided_in_tolerance_amended_witness :
    ((1 : ℚ)/4 ≠ 1/2) ∧
    TrackOneLiquidToleranceLevel.in_tolerance false
      (TrackOneLiquidToleranceLevel.set_tolerance_levels (1/2)) (1/4) =
      .ok (decide ((1 : ℚ)/4 < 1/2) == false) :=
  ⟨by norm_num, (C3_one_sided_in_tolerance_amended false (1/2) (1/4)).1
    (by norm_num)⟩

/-- C4: on samples [0.10, 0.10, 0.10, 0.10, 0.90] with z-score threshold 1,
`reject_outliers_modified_z` (median 0.10, MAD 0 replaced by the 0.001
epsilon) discards exactly the single 0.90 outlier, and the subsequent
arithmetic mean of `monitor_liquid_level` is exactly 0.10. -/
theorem C4_aggregator_rejects_outlier :
    AutomatedLiquidLevelApplication.reject_outliers_modified_z
      [1/10, 1/10, 1/10, 1/10, 9/10] 1 = some [1/10, 1/10, 1/10, 1/10] ∧
    AutomatedLiquidLevelApplication.monitor_average_percent_diff
      [1/10, 1/10, 1/10, 1/10, 9/10] 1 = some (1/10) := by
  constructor <;>
    norm_num [AutomatedLiquidLevelApplication.monitor_average_percent_diff,
      AutomatedLiquidLevelApplication.reject_outliers_modified_z,
      AutomatedLiquidLevelApplication.npMedian,
      AutomatedLiquidLevelApplication.sortAsc,
      AutomatedLiquidLevelApplication.insertAsc, List.filterMap, abs_lt]

theorem distance_round_trip_aux (h : ℚ) : ∀ (l : List ℚ) (r d : ℚ),
    (r, d) ∈ l.zip (l.map (fun row => row - h)) → r - d = h := by
  intro l
  induction l with
  | nil =>
    intro r d hm
    cases hm
  | cons x t ih =>
    intro r d hm
    rw [List.map_cons, List.zip_cons_cons] at hm
    rcases List.mem_cons.mp hm with heq | htail
    · rw [Prod.mk.injEq] at heq
      obtain ⟨rfl, rfl⟩ := heq
      ring
    · exact ih r d htail

/-- C5: for a non-empty list of stored reference heights and any relative
height h, `distance_from_reference h` returns `reference - h` for every
stored reference, so `reference - distance = h` holds for every stored
reference, paired with its distance. -/
theorem C5_distance_from_reference_round_trip (refs : List ℚ) (h : ℚ)
    (_hne : refs ≠ []) :
    TrackLiquidToleranceLevels.distance_from_reference refs h =
      refs.map (fun r => r - h) ∧
    ∀ r d, (r, d) ∈ refs.zip
        (TrackLiquidToleranceLevels.distance_from_reference refs h) →
      r - d = h := by
  refine ⟨rfl, ?_⟩
  intro r d hmem
  exact distance_round_trip_aux h refs r d hmem

/-- Witness for C5: the single stored reference 1/2 queried at height 1/4
gives distance 1/4, and reference minus distance recovers the height. -/
theorem C5_distance_from_reference_round_trip_witness :
    (([(1 : ℚ)/2] : List ℚ) ≠ []) ∧ ((1 : ℚ)/2 - 1/4 = 1/4) := by
  refine ⟨by simp, ?_⟩
  have h := C5_distance_from_reference_round_trip [1/2] (1/4) (by simp)
  refine h.2 (1/2) (1/4) ?_
  norm_num [TrackLiquidToleranceLevels.distance_from_reference]

/-- C6: the claim says querying the signed distance with no reference set
fails with a `NoReferenceError`-style error and is never silently
defaulted.  After `reset` empties `reference_rows`, the tracker-level
method returns the empty list and `LiquidLevel.distance_from_reference`
succeeds with it (its `is None` guard never fires), so the query is
silently defaulted instead of failing. -/
theorem C6_distance_from_reference_silently_empty :
    TrackLiquidToleranceLevels.distance_from_reference
      (TrackLiquidToleranceLevels.reset ⟨[1/2], [1/4]⟩).referenceRows (1/2) =
      [] ∧
    LiquidLevel.distance_from_reference true
      (TrackLiquidToleranceLevels.reset ⟨[1/2], [1/4]⟩).referenceRows (1/2) =
      .ok (some []) :=
  ⟨rfl, rfl⟩

/-- C7 counterexample: the claim says degenerate region selections raise
`InvalidRegionError`.  No such error exists in the code: a single selected
point crashes with `IndexError` from the `[-2]` subscription, while a
rectangle with identical corners is accepted and produces a bounding box of
zero width and zero height. -/
theorem C7_degenerate_region_counterexample :
    LiquidLevel.select_region_of_interest [((3 : ℤ), (4 : ℤ))] =
      .error .indexError ∧
    LiquidLevel.select_region_of_interest [(3, 4), (3, 4)] =
      .ok ((3, 4), (3, 4)) ∧
    LiquidLevel.find_maximum_edges_of_mask [(3, 4), (3, 4)] = (3, 3, 4, 4) :=
  ⟨rfl, rfl, rfl⟩

/-- C7 (amended): region selection performs no validation.  For any
in-bounds point p, selecting p alone fails with `IndexError` (not an
`InvalidRegionError`, which does not exist in the code), and selecting the
rectangle (p, p) succeeds with a degenerate bounding box whose left equals
its right and whose top equals its bottom. -/
theorem C7_degenerate_region_amended (p : ℤ × ℤ)
    (hx0 : 0 ≤ p.1) (hx1 : p.1 < 1000 * 1000)
    (hy0 : 0 ≤ p.2) (hy1 : p.2 < 1000 * 1000) :
    LiquidLevel.select_region_of_interest [p] = .error .indexError ∧
    LiquidLevel.select_region_of_interest [p, p] = .ok (p, p) ∧
    LiquidLevel.find_maximum_edges_of_mask [p, p] =
      (p.1, p.1, p.2, p.2) := by
  have hxm : (-1 : ℤ) < p.1 := by omega
  have hym : (-1 : ℤ) < p.2 := by omega
  have hx1m : p.1 < 1000000 := by omega
  have hy1m : p.2 < 1000000 := by omega
  refine ⟨rfl, rfl, ?_⟩
  simp only [LiquidLevel.find_maximum_edges_of_mask, List.foldl_cons,
    List.foldl_nil]
  simp [hx1m, hy1m, hxm, hym, lt_irrefl]

/-- Witness for C7: the point (3, 4) is in bounds; its singleton selection
fails with `IndexError` and its degenerate rectangle collapses the bounding
box. -/
theorem C7_degenerate_region_amended_witness :
    (0 ≤ (3 : ℤ)) ∧ ((3 : ℤ) < 1000 * 1000) ∧
    (0 ≤ (4 : ℤ)) ∧ ((4 : ℤ) < 1000 * 1000) ∧
    LiquidLevel.select_region_of_interest [((3 : ℤ), (4 : ℤ))] =
      .error .indexError ∧
    LiquidLevel.find_maximum_edges_of_mask [((3 : ℤ), (4 : ℤ)), (3, 4)] =
      (3, 3, 4, 4) := by
  have h := C7_degenerate_region_amended ((3 : ℤ), (4 : ℤ)) (by decide)
    (by decide) (by decide) (by decide)
  exact ⟨by decide, by decide, by decide, by decide, h.1, h.2.2⟩

/-- C8 counterexample: the claim says the returned meniscus row lies
strictly between the rows of the two highest peaks of the absolute second
derivative.  On the profile `xsC8` with rows 10..18, the peak window is
(1, 5), the peak rows are rows[1+2] = 13 and rows[5+2] = 17, yet the
function returns row 18, one row beyond the upper peak row and outside the
strict band. -/
theorem C8_strictly_between_counterexample :
    selectPeakWindow (npAbsList (npDiff (npDiff xsC8))) = some (1, 5) ∧
    (rangeZ 10 9).getD (1 + 2) 0 = 13 ∧
    (rangeZ 10 9).getD (5 + 2) 0 = 17 ∧
    find_max_change_location (rangeZ 10 9) xsC8 = .ok 18 ∧
    ¬((13 : ℤ) < 18 ∧ (18 : ℤ) < 17) := by
  refine ⟨rfl, rfl, rfl, rfl, ?_⟩
  intro hcon
  exact absurd hcon.2 (by decide)

/-- C8 (amended): whenever the two-peak window (pLo, pHi) of the absolute
second derivative is selected and some absolute third-derivative value in
the inclusive index window [pLo, pHi] is positive, the function returns
`rows[k + 3]` where k is the first index of the maximum absolute third
derivative over that inclusive window (the window bounds are
second-derivative indices applied directly to the third-derivative array);
in row terms the returned row lies strictly below the lower peak row
(rows[pLo + 2]) but only at most ONE row past the upper peak row
(rows[pHi + 2] + 1), not strictly between the peak rows. -/
theorem C8_derivative_window_amended {A : Type} [LinearOrderedRing A]
    (top : ℤ) (xs : List A) (pLo pHi k : ℕ)
    (hwin : selectPeakWindow (npAbsList (npDiff (npDiff xs))) =
      some (pLo, pHi))
    (hk : k = (maxLoop pLo pHi (npAbsList (npDiff (npDiff (npDiff xs)))) 0
      ((0 : A), (0 : ℕ))).2)
    (hpos : ∃ j, pLo ≤ j ∧ j ≤ pHi ∧
      j < (npAbsList (npDiff (npDiff (npDiff xs)))).length ∧
      0 < (npAbsList (npDiff (npDiff (npDiff xs)))).getD j 0) :
    find_max_change_location (rangeZ top xs.length) xs =
      .ok (top + ((k : ℤ) + 3)) ∧
    pLo ≤ k ∧ k ≤ pHi ∧
    (∀ j, pLo ≤ j → j ≤ pHi →
      j < (npAbsList (npDiff (npDiff (npDiff xs)))).length →
      (npAbsList (npDiff (npDiff (npDiff xs)))).getD j 0 ≤
        (npAbsList (npDiff (npDiff (npDiff xs)))).getD k 0) ∧
    top + (pLo : ℤ) + 2 < top + ((k : ℤ) + 3) ∧
    top + ((k : ℤ) + 3) ≤ (top + (pHi : ℤ) + 2) + 1 := by
  set abs3 := npAbsList (npDiff (npDiff (npDiff xs))) with habs3
  obtain ⟨j0, hj1, hj2, hj3, hj4⟩ := hpos
  have hge0 := maxLoop_fst_ge pLo pHi abs3 0 ((0 : A), (0 : ℕ)) j0
    (Nat.zero_le _) (by omega) hj1 hj2
  rcases maxLoop_spec pLo pHi abs3 0 ((0 : A), (0 : ℕ)) with heq | hp
  · exfalso
    rw [heq] at hge0
    simp only [Nat.sub_zero] at hge0
    exact absurd (lt_of_lt_of_le hj4 hge0) (lt_irrefl _)
  · obtain ⟨p1, p2, _p3, p4, p5⟩ := hp
    rw [← hk] at p1 p2 p4 p5
    simp only [Nat.zero_add] at p4
    simp only [Nat.sub_zero] at p5
    have hlen3 : abs3.length = xs.length - 3 := by
      rw [habs3, npAbsList_length, npDiff_length, npDiff_length,
        npDiff_length]
      omega
    have hkx : k + 3 < xs.length := by omega
    have hmaxim : ∀ j, pLo ≤ j → j ≤ pHi → j < abs3.length →
        abs3.getD j 0 ≤ abs3.getD k 0 := by
      intro j hj1' hj2' hj3'
      have hgej := maxLoop_fst_ge pLo pHi abs3 0 ((0 : A), (0 : ℕ)) j
        (Nat.zero_le _) (by omega) hj1' hj2'
      rw [p5] at hgej
      simpa using hgej
    have hget : (rangeZ top xs.length).get? (k + 3) =
        some (top + (k + 3 : ℕ)) :=
      rangeZ_get? top xs.length (k + 3) hkx
    have heqn : find_max_change_location (rangeZ top xs.length) xs =
        .ok (top + ((k : ℤ) + 3)) := by
      simp only [find_max_change_location]
      rw [hwin]
      simp only []
      rw [← habs3, ← hk, hget]
      push_cast
      ring_nf
    refine ⟨heqn, p1, p2, hmaxim, by omega, by omega⟩

/-- Witness for C8: on the profile `xsC8` with rows 10..18 the peak window
is (1, 5), index 5 carries a positive absolute third derivative, and the
theorem yields the returned row 10 + (5 + 3) = 18 together with its
bounds. -/
theorem C8_derivative_window_amended_witness :
    find_max_change_location (rangeZ 10 9) xsC8 =
      .ok (10 + (((5 : ℕ) : ℤ) + 3)) ∧
    (1 : ℕ) ≤ 5 ∧ (5 : ℕ) ≤ 5 ∧
    (10 : ℤ) + ((1 : ℕ) : ℤ) + 2 < 10 + (((5 : ℕ) : ℤ) + 3) := by
  have h := @C8_derivative_window_amended ℤ _ 10 xsC8 1 5 5 rfl rfl
    ⟨5, by decide, by decide, by decide, by decide⟩
  exact ⟨h.1, h.2.1, h.2.2.1, h.2.2.2.2.1⟩

/-- C9: with an empty `tolerance_levels` list (fresh tracker or after
`reset`), `TrackTwoLiquidToleranceLevels.in_tolerance` fails with
`IndexError` from the unguarded `tolerance_levels[0]` subscription: the
identity guard against a fresh `[]` literal evaluates to false for every
value, so the intended `AttributeError` branch is unreachable. -/
theorem C9_empty_tolerance_levels_index_error
    (s : TrackLiquidToleranceLevels.State) (h : ℚ) :
    TrackTwoLiquidToleranceLevels.in_tolerance
      (TrackLiquidToleranceLevels.reset s).toleranceLevels h =
      .error .indexError ∧
    TrackTwoLiquidToleranceLevels.isFreshEmptyLiteral
      (TrackLiquidToleranceLevels.reset s).toleranceLevels = false ∧
    TrackTwoLiquidToleranceLevels.in_tolerance ([] : List ℚ) h ≠
      .error .attributeError := by
  refine ⟨rfl, rfl, ?_⟩
  simp [TrackTwoLiquidToleranceLevels.in_tolerance,
    TrackTwoLiquidToleranceLevels.isFreshEmptyLiteral]

/-- C10: `add_image_to_memory` appends exactly one (name, image) entry to
the caller-visible list and never removes any entry: the caller's list
object is exactly the old list extended by the new entry, one longer,
regardless of how long it already was (the 50-entry truncation only rebinds
the local name, returned as the second component). -/
theorem C10_add_image_to_memory_appends_without_bound {Img Name : Type}
    (img : Img) (imgName : Name) (arr : List (Name × Img)) :
    (LiquidLevel.add_image_to_memory img imgName arr).1 =
      arr ++ [(imgName, img)] ∧
    (LiquidLevel.add_image_to_memory img imgName arr).1.length =
      arr.length + 1 := by
  refine ⟨rfl, ?_⟩
  simp [LiquidLevel.add_image_to_memory]

/-- Witness for C1: on a concrete 100-row image with candidate rows 1/2/3
and zero regional averages, the result with the unreachable threshold 0.99
and `no_error = False` coincides with any other configuration and is not a
`NoMeniscusFound` error. -/
theorem C1_find_liquid_level_never_raises_no_meniscus_witness :
    LiquidLevel.find_liquid_level 100 1 2 3 0 0 0 (99/100) false =
      LiquidLevel.find_liquid_level 100 1 2 3 0 0 0 0 true ∧
    LiquidLevel.find_liquid_level 100 1 2 3 0 0 0 (99/100) false ≠
      Except.error PyErr.noMeniscusFound := by
  have h := C1_find_liquid_level_never_raises_no_meniscus 100 1 2 3 0 0 0
  exact ⟨h.1 (99/100) 0 false true, h.2 (99/100) false⟩

/-- Witness for C9: resetting a tracker holding a reference and a tolerance
and then querying `in_tolerance` at height 1/2 yields the `IndexError`. -/
theorem C9_empty_tolerance_levels_index_error_witness :
    TrackTwoLiquidToleranceLevels.in_tolerance
      (TrackLiquidToleranceLevels.reset ⟨[1/2], [1/4]⟩).toleranceLevels
      (1/2) = .error .indexError ∧
    TrackTwoLiquidToleranceLevels.in_tolerance ([] : List ℚ) (1/2) ≠
      .error .attributeError := by
  have h := C9_empty_tolerance_levels_index_error ⟨[1/2], [1/4]⟩ (1/2)
  exact ⟨h.1, h.2.2⟩

/-- Witness for C10: appending the entry (7, 5) to the concrete two-entry
history [(1, 2), (3, 4)] yields exactly the three-entry extension. -/
theorem C10_add_image_to_memory_appends_without_bound_witness :
    (LiquidLevel.add_image_to_memory (5 : ℕ) (7 : ℕ) [(1, 2), (3, 4)]).1 =
      [(1, 2), (3, 4), (7, 5)] ∧
    (LiquidLevel.add_image_to_memory (5 : ℕ) (7 : ℕ)
      [(1, 2), (3, 4)]).1.length = 3 := by
  have h := C10_add_image_to_memory_appends_without_bound (5 : ℕ) (7 : ℕ)
    [(1, 2), (3, 4)]
  exact ⟨h.1, h.2⟩
